import Mathlib

/-!
Verification development for the segment-synchronized dub assembly pipeline
(video translation backend).  The definitions below are shallow embeddings of
the JavaScript source:

* `captionService.js` — caption/transcript synchronizer
  (`regenerateSegmentTiming`, `generateWebVTT`, `generateSRT`,
  `generatePlainTextTranscript`, `generateCaptions` validation),
* `ttsService.js` (integrated version inside `transcriptionService.js`,
  lines 3199-4018) — segment-based TTS timeline assembler and segment fitter
  (`generateSegmentBasedTTS`, `adjustAudioDuration`, speech-rate estimation),
* `processController.js` — pipeline orchestrator (`processVideo`).

JavaScript numbers are modelled as exact rationals (`ℚ`); `toFixed(n)` is
modelled as decimal rounding (half up, the behaviour on the nonnegative
values that occur here); external effects (speech synthesis, ffprobe) are
modelled as explicit outcome parameters.
-/

namespace DubPipeline

/-- JS `Math.round`: round half towards positive infinity. -/
def jsRound (q : ℚ) : ℤ := ⌊q + 1/2⌋

/-- JS `parseFloat(x.toFixed(3))` on the nonnegative durations used by the
caption synchronizer: round to 3 decimal places, half up. -/
def round3 (q : ℚ) : ℚ := (⌊q * 1000 + 1/2⌋ : ℤ) / 1000

/-- JS `parseFloat(x.toFixed(1))` numerator: round to 1 decimal place. -/
def round1Num (q : ℚ) : ℤ := ⌊q * 10 + 1/2⌋

theorem round3_mono {x y : ℚ} (h : x ≤ y) : round3 x ≤ round3 y := by
  unfold round3
  have hf : ⌊x * 1000 + 1/2⌋ ≤ ⌊y * 1000 + 1/2⌋ := by
    apply Int.floor_le_floor
    have : x * 1000 ≤ y * 1000 := by nlinarith
    linarith
  have : ((⌊x * 1000 + 1/2⌋ : ℤ) : ℚ) ≤ ((⌊y * 1000 + 1/2⌋ : ℤ) : ℚ) := by
    exact_mod_cast hf
  exact div_le_div_of_nonneg_right this (by norm_num)

theorem round3_intMul (k : ℤ) : round3 ((k : ℚ) / 1000) = (k : ℚ) / 1000 := by
  unfold round3
  have : ((k : ℚ) / 1000) * 1000 = (k : ℚ) := by
    field_simp
  rw [this]
  have : ⌊(k : ℚ) + 1/2⌋ = k := by
    rw [add_comm]
    rw [Int.floor_add_int]
    norm_num
  rw [this]

theorem round3_zero : round3 0 = 0 := by
  unfold round3
  norm_num

/-- One timed unit of speech (translated segment), as consumed by both the
caption synchronizer and the TTS assembler. -/
structure Segment where
  start : ℚ
  endTime : ℚ
  text : String
  deriving Repr, DecidableEq

/-- Output of `regenerateSegmentTiming`: a segment with timing recomputed
from the achieved audio duration (fields as in the JS object literal). -/
structure SyncedSegment where
  start : ℚ
  endTime : ℚ
  duration : ℚ
  text : String
  index : Nat
  originalStart : ℚ
  originalEnd : ℚ
  deriving Repr, DecidableEq

/-- Body of the `originalSegments.map((segment, index) => ...)` callback in
`regenerateSegmentTiming` (captionService.js lines 250-271). -/
def syncSegment (segmentCount : Nat) (segmentDuration actualDuration : ℚ)
    (index : Nat) (segment : Segment) : SyncedSegment :=
  let newStart : ℚ := index * segmentDuration
  let newEnd : ℚ := (index + 1) * segmentDuration
  -- "Ensure last segment ends exactly at total duration"
  let adjustedEnd : ℚ := if index = segmentCount - 1 then actualDuration else newEnd
  { start := round3 newStart
    endTime := round3 adjustedEnd
    duration := round3 (adjustedEnd - newStart)
    text := segment.text
    index := index + 1
    originalStart := segment.start
    originalEnd := segment.endTime }

/-- Index-carrying recursion implementing the `.map` with index. -/
def regenTimingAux (segmentCount : Nat) (segmentDuration actualDuration : ℚ) :
    Nat → List Segment → List SyncedSegment
  | _, [] => []
  | index, segment :: rest =>
      syncSegment segmentCount segmentDuration actualDuration index segment ::
        regenTimingAux segmentCount segmentDuration actualDuration (index + 1) rest

/-- Model of `regenerateSegmentTiming` (captionService.js lines 240-277): uniform
redistribution of the achieved duration over the full segment list. -/
def regenerateSegmentTiming (originalSegments : List Segment)
    (actualDuration : ℚ) : List SyncedSegment :=
  let segmentCount := originalSegments.length
  let segmentDuration := actualDuration / segmentCount
  regenTimingAux segmentCount segmentDuration actualDuration 0 originalSegments

theorem regenTimingAux_length (n : Nat) (d D : ℚ) :
    ∀ (i : Nat) (l : List Segment), (regenTimingAux n d D i l).length = l.length := by
  intro i l
  induction l generalizing i with
  | nil => simp [regenTimingAux]
  | cons a t ih => simp [regenTimingAux, ih]

theorem regenerateSegmentTiming_length (segs : List Segment) (D : ℚ) :
    (regenerateSegmentTiming segs D).length = segs.length := by
  unfold regenerateSegmentTiming
  exact regenTimingAux_length _ _ _ 0 segs

theorem regenTimingAux_getElem (n : Nat) (d D : ℚ) :
    ∀ (i : Nat) (l : List Segment) (j : Nat) (hj : j < (regenTimingAux n d D i l).length)
      (hj' : j < l.length),
      (regenTimingAux n d D i l)[j] = syncSegment n d D (i + j) l[j] := by
  intro i l
  induction l generalizing i with
  | nil => intro j hj hj'; simp at hj'
  | cons a t ih =>
      intro j hj hj'
      cases j with
      | zero => simp [regenTimingAux]
      | succ k =>
          have hk : k < (regenTimingAux n d D (i + 1) t).length := by
            have := regenTimingAux_length n d D (i + 1) t
            simp [regenTimingAux] at hj
            omega
          have hk' : k < t.length := by
            simp at hj'
            omega
          have := ih (i + 1) k hk hk'
          simp [regenTimingAux]
          rw [show i + (k + 1) = i + 1 + k by omega]
          exact this

theorem regenerateSegmentTiming_getElem (segs : List Segment) (D : ℚ)
    (j : Nat) (hj : j < (regenerateSegmentTiming segs D).length)
    (hj' : j < segs.length) :
    (regenerateSegmentTiming segs D)[j] =
      syncSegment segs.length (D / segs.length) D j segs[j] := by
  have hj2 : j < (regenTimingAux segs.length (D / segs.length) D 0 segs).length := by
    simpa [regenerateSegmentTiming] using hj
  have h := regenTimingAux_getElem segs.length (D / segs.length) D 0 segs j hj2 hj'
  simpa [regenerateSegmentTiming, Nat.zero_add] using h

theorem regenTimingAux_map_timing (n : Nat) (d D : ℚ) :
    ∀ (i : Nat) (l l' : List Segment), l.length = l'.length →
      (regenTimingAux n d D i l).map (fun s => (s.start, s.endTime))
        = (regenTimingAux n d D i l').map (fun s => (s.start, s.endTime)) := by
  intro i l
  induction l generalizing i with
  | nil =>
      intro l' hl
      cases l' with
      | nil => rfl
      | cons b t' => simp at hl
  | cons a t ih =>
      intro l' hl
      cases l' with
      | nil => simp at hl
      | cons b t' =>
          simp at hl
          simp [regenTimingAux, syncSegment]
          exact ih (i + 1) t' hl

/-- C10: for a non-empty segment list and nonnegative achieved duration, the
synced segments partition the timeline contiguously: the first start is 0,
each cue's end equals the next cue's start, and every start is at most its
end. -/
theorem synced_segments_contiguous (segs : List Segment) (D : ℚ)
    (hne : segs ≠ []) (hD : 0 ≤ D) :
    (∀ (h0 : 0 < (regenerateSegmentTiming segs D).length),
        ((regenerateSegmentTiming segs D)[0]).start = 0) ∧
    (∀ (i : Nat) (hi : i + 1 < (regenerateSegmentTiming segs D).length),
        ((regenerateSegmentTiming segs D)[i]).endTime
          = ((regenerateSegmentTiming segs D)[i + 1]).start) ∧
    (∀ (i : Nat) (hi : i < (regenerateSegmentTiming segs D).length),
        ((regenerateSegmentTiming segs D)[i]).start
          ≤ ((regenerateSegmentTiming segs D)[i]).endTime) := by
  have hn : 0 < segs.length := List.length_pos.mpr hne
  have hlen := regenerateSegmentTiming_length segs D
  have hd : 0 ≤ D / (segs.length : ℚ) := div_nonneg hD (Nat.cast_nonneg _)
  refine ⟨?_, ?_, ?_⟩
  · intro h0
    rw [regenerateSegmentTiming_getElem segs D 0 h0 hn]
    simp [syncSegment, round3_zero]
  · intro i hi
    have hi1 : i + 1 < segs.length := by omega
    have hii : i < (regenerateSegmentTiming segs D).length := by omega
    rw [regenerateSegmentTiming_getElem segs D i hii (by omega),
        regenerateSegmentTiming_getElem segs D (i + 1) hi hi1]
    have hne' : i ≠ segs.length - 1 := by omega
    simp only [syncSegment, if_neg hne']
    congr 1
    push_cast
    ring
  · intro i hi
    have hi' : i < segs.length := by omega
    rw [regenerateSegmentTiming_getElem segs D i hi hi']
    simp only [syncSegment]
    by_cases hc : i = segs.length - 1
    · rw [if_pos hc]
      apply round3_mono
      have hle : (i : ℚ) ≤ (segs.length : ℚ) := by

        exact_mod_cast Nat.le_of_lt hi'
      have h1 : (i : ℚ) * (D / segs.length) ≤ (segs.length : ℚ) * (D / segs.length) :=
        mul_le_mul_of_nonneg_right hle hd
      have h2 : (segs.length : ℚ) * (D / segs.length) = D := by
        field_simp
      linarith
    · rw [if_neg hc]
      apply round3_mono
      have : ((i : ℚ) + 1) * (D / segs.length)
          = (i : ℚ) * (D / segs.length) + D / segs.length := by ring
      linarith

/-- C10 witness: the contiguity theorem instantiated on a concrete
two-segment list with achieved duration 2. -/
theorem synced_segments_contiguous_witness :
    ((regenerateSegmentTiming
        [⟨0, 1, "a"⟩, ⟨1, 2, "b"⟩] 2).get ⟨0, by decide⟩).start = 0 := by
  exact (synced_segments_contiguous [⟨0, 1, "a"⟩, ⟨1, 2, "b"⟩] 2
    (by decide) (by norm_num)).1 (by decide)

/-- C2 counterexample: with three segments and achieved duration 1 the code
stores the 3-decimal rounded value `0.333`, not `1 * (1/3)`, so the claimed
exact timing `start_i = i * d` fails. -/
theorem regen_timing_exact_counterexample :
    (regenerateSegmentTiming [⟨0, 1, "a"⟩, ⟨1, 2, "b"⟩, ⟨2, 3, "c"⟩] 1).map
        SyncedSegment.start
      ≠ [0 * ((1 : ℚ) / 3), 1 * ((1 : ℚ) / 3), 2 * ((1 : ℚ) / 3)] := by
  simp only [regenerateSegmentTiming, regenTimingAux, syncSegment, round3,
    List.length_cons, List.length_nil, List.map_cons, List.map_nil]
  intro h
  have h1 := (List.cons_eq_cons.mp h).2
  have h2 := (List.cons_eq_cons.mp h1).1
  norm_num at h2

/-- C2 (amended): `regenerateSegmentTiming` assigns
`start_i = round3 (i * d)` and `end_i = round3 ((i+1) * d)` with
`d = D / segment_count` over the full input list (timing depends only on the
list length, so empty-text segments still count and dropping them from the
rendered output shifts nothing); the last end is `round3 D`, which equals `D`
exactly whenever `D` is a whole number of milliseconds. -/
theorem regen_timing_rounded_uniform (segs : List Segment) (D : ℚ)
    (hne : segs ≠ []) :
    (regenerateSegmentTiming segs D).length = segs.length ∧
    (∀ (i : Nat) (hi : i < (regenerateSegmentTiming segs D).length),
        ((regenerateSegmentTiming segs D)[i]).start
            = round3 (i * (D / segs.length)) ∧
        ((regenerateSegmentTiming segs D)[i]).endTime
            = (if i = segs.length - 1 then round3 D
               else round3 ((i + 1) * (D / segs.length))) ∧
        ((regenerateSegmentTiming segs D)[i]).index = i + 1) ∧
    (∀ (hl : segs.length - 1 < (regenerateSegmentTiming segs D).length),
        ((regenerateSegmentTiming segs D)[segs.length - 1]).endTime
          = round3 D) ∧
    ((∃ k : ℤ, D = (k : ℚ) / 1000) →
      ∀ (hl : segs.length - 1 < (regenerateSegmentTiming segs D).length),
        ((regenerateSegmentTiming segs D)[segs.length - 1]).endTime = D) ∧
    (∀ segs' : List Segment, segs'.length = segs.length →
        (regenerateSegmentTiming segs' D).map (fun s => (s.start, s.endTime))
          = (regenerateSegmentTiming segs D).map (fun s => (s.start, s.endTime))) := by
  have hn : 0 < segs.length := List.length_pos.mpr hne
  have hlen := regenerateSegmentTiming_length segs D
  have hmain : ∀ (i : Nat) (hi : i < (regenerateSegmentTiming segs D).length),
      ((regenerateSegmentTiming segs D)[i]).start
          = round3 (i * (D / segs.length)) ∧
      ((regenerateSegmentTiming segs D)[i]).endTime
          = (if i = segs.length - 1 then round3 D
             else round3 ((i + 1) * (D / segs.length))) ∧
      ((regenerateSegmentTiming segs D)[i]).index = i + 1 := by
    intro i hi
    have hi' : i < segs.length := by omega
    rw [regenerateSegmentTiming_getElem segs D i hi hi']
    refine ⟨rfl, ?_, rfl⟩
    simp only [syncSegment]
    by_cases hc : i = segs.length - 1
    · rw [if_pos hc, if_pos hc]
    · rw [if_neg hc, if_neg hc]
  refine ⟨hlen, hmain, ?_, ?_, ?_⟩
  · intro hl
    have h := (hmain (segs.length - 1) hl).2.1
    rw [h, if_pos rfl]
  · rintro ⟨k, rfl⟩ hl
    have h := (hmain (segs.length - 1) hl).2.1
    rw [h, if_pos rfl]
    exact round3_intMul k
  · intro segs' hlen'
    unfold regenerateSegmentTiming
    rw [hlen']
    exact regenTimingAux_map_timing _ _ _ 0 segs' segs hlen'

/-- C2 witness: the amended timing theorem instantiated on a concrete
two-segment list with achieved duration 3. -/
theorem regen_timing_rounded_uniform_witness :
    (regenerateSegmentTiming [⟨0, 1, "a"⟩, ⟨1, 2, ""⟩] 3).length = 2 := by
  exact (regen_timing_rounded_uniform [⟨0, 1, "a"⟩, ⟨1, 2, ""⟩] 3 (by decide)).1

/-! ### Caption rendering (captionService.js lines 279-521)

JS string primitives (`trim`, `split(' ')`, `repeat`, `padStart`) are
modelled over the character list of a `String`; JS `%` on nonnegative
numbers is `jsMod`. -/

/-- JS `String.prototype.trim` (ASCII whitespace, which is all the cleaning
the rendered segments need). -/
def jsTrim (s : String) : String :=
  ⟨((s.data.dropWhile Char.isWhitespace).reverse.dropWhile Char.isWhitespace).reverse⟩

/-- Splitting a character list at every occurrence of `c`
(JS `split(c)` semantics: consecutive separators yield empty fields). -/
def splitCharAux (c : Char) : List Char → List (List Char)
  | [] => [[]]
  | a :: rest =>
      let r := splitCharAux c rest
      if a = c then [] :: r
      else
        match r with
        | [] => [[a]]
        | h :: t => (a :: h) :: t

/-- JS `text.split(' ')`. -/
def jsSplitOnSpace (s : String) : List String :=
  (splitCharAux ' ' s.data).map (fun l => ⟨l⟩)

/-- JS `text.replace(/\s+/g, ' ')`: collapse each whitespace run to a single
space. -/
def collapseWs (s : String) : String :=
  (s.data.foldl
    (fun (acc : String × Bool) (c : Char) =>
      if c.isWhitespace then
        if acc.2 then acc else (acc.1.push ' ', true)
      else (acc.1.push c, false))
    ("", false)).1

/-- JS `array.join(sep)`. -/
def joinSep (sep : String) (ls : List String) : String :=
  match ls with
  | [] => ""
  | h :: t => t.foldl (fun acc x => acc ++ sep ++ x) h

/-- One step of the greedy word-packing loop in `breakLongLines`
(state: lines accumulated so far, current line). -/
def breakStep (maxLength : Nat) (st : List String × String) (word : String) :
    List String × String :=
  let lines := st.1
  let currentLine := st.2
  if (currentLine ++ " " ++ word).length ≤ maxLength then
    (lines, currentLine ++ (if currentLine.data.isEmpty then "" else " ") ++ word)
  else
    (if currentLine.data.isEmpty then lines else lines ++ [currentLine], word)

/-- Model of `breakLongLines` (captionService.js lines 496-521): soft-wrap at
`maxLength` characters by greedy word packing. -/
def breakLongLines (text : String) (maxLength : Nat) : String :=
  if text.length ≤ maxLength then text
  else
    let words := jsSplitOnSpace text
    let st := words.foldl (breakStep maxLength) ([], "")
    joinSep "\n" (if st.2.data.isEmpty then st.1 else st.1 ++ [st.2])

/-- JS `%` on nonnegative rational operands. -/
def jsMod (x y : ℚ) : ℚ := x - y * ⌊x / y⌋

/-- JS `String(...).padStart(w, '0')`. -/
def padStart0 (w : Nat) (s : String) : String :=
  ⟨List.replicate (w - s.data.length) '0' ++ s.data⟩

/-- JS `c.repeat n` for a single character. -/
def repeatChar (c : Char) (n : Nat) : String := ⟨List.replicate n c⟩

/-- Model of `formatWebVTTTime` (captionService.js lines 449-457):
`HH:MM:SS.mmm`. -/
def formatWebVTTTime (seconds : ℚ) : String :=
  let totalSeconds := max 0 seconds
  let hours := ⌊totalSeconds / 3600⌋
  let minutes := ⌊jsMod totalSeconds 3600 / 60⌋
  let secs := ⌊jsMod totalSeconds 60⌋
  let milliseconds := ⌊jsMod totalSeconds 1 * 1000⌋
  padStart0 2 (toString hours) ++ ":" ++ padStart0 2 (toString minutes) ++ ":"
    ++ padStart0 2 (toString secs) ++ "." ++ padStart0 3 (toString milliseconds)

/-- Model of `formatSRTTime` (captionService.js lines 465-473): `HH:MM:SS,mmm`. -/
def formatSRTTime (seconds : ℚ) : String :=
  let totalSeconds := max 0 seconds
  let hours := ⌊totalSeconds / 3600⌋
  let minutes := ⌊jsMod totalSeconds 3600 / 60⌋
  let secs := ⌊jsMod totalSeconds 60⌋
  let milliseconds := ⌊jsMod totalSeconds 1 * 1000⌋
  padStart0 2 (toString hours) ++ ":" ++ padStart0 2 (toString minutes) ++ ":"
    ++ padStart0 2 (toString secs) ++ "," ++ padStart0 3 (toString milliseconds)

/-- Model of `formatReadableTime` (captionService.js lines 481-487): `MM:SS`. -/
def formatReadableTime (seconds : ℚ) : String :=
  let totalSeconds := max 0 seconds
  let minutes := ⌊totalSeconds / 60⌋
  let secs := ⌊jsMod totalSeconds 60⌋
  padStart0 2 (toString minutes) ++ ":" ++ padStart0 2 (toString secs)

/-- JS number-to-string conversion for the interpolated durations; exact for
the millisecond-precision values the synchronizer produces (integers print
without a decimal point, trailing fractional zeros are dropped). -/
def decimal3String (q : ℚ) : String :=
  if q < 0 then
    "-" ++ decimal3String (-q)
  else
    let n := ⌊q * 1000 + 1/2⌋
    let intPart := n / 1000
    let frac := n % 1000
    if frac = 0 then toString intPart
    else if frac % 100 = 0 then toString intPart ++ "." ++ toString (frac / 100)
    else if frac % 10 = 0 then toString intPart ++ "." ++ padStart0 2 (toString (frac / 10))
    else toString intPart ++ "." ++ padStart0 3 (toString frac)
  termination_by (if q < 0 then 1 else 0)
  decreasing_by
    simp_all
    linarith

/-- JS `(x).toFixed(1)`. -/
def toFixed1String (q : ℚ) : String :=
  if q < 0 then
    "-" ++ toFixed1String (-q)
  else
    let n := ⌊q * 10 + 1/2⌋
    toString (n / 10) ++ "." ++ toString (n % 10)
  termination_by (if q < 0 then 1 else 0)
  decreasing_by
    simp_all
    linarith

/-- Metadata of the translation object consumed by the caption renderers
(`language_name || language`, `translation_service || 'enhanced-pipeline'`
are modelled as already-resolved labels). -/
structure Translation where
  segments : List Segment
  languageLabel : String
  serviceLabel : String
  text : String

/-- Value of `segments[segments.length - 1]?.end || 0`. -/
def lastEndOr0 (segments : List SyncedSegment) : ℚ :=
  match segments.getLast? with
  | some s => s.endTime
  | none => 0

/-- Cue loop of `generateWebVTT` (captionService.js lines 300-336); the cue
id is the loop index + 1, so skipped empty segments leave gaps in the
numbering.  The `missing start/end` guards of the source cannot fire in this
model (timing is always a number). -/
def webvttCues : Nat → List SyncedSegment → String
  | _, [] => ""
  | i, segment :: rest =>
      (if (jsTrim segment.text).data.isEmpty then ""
       else
         toString (i + 1) ++ "\n"
           ++ formatWebVTTTime segment.start ++ " --> "
           ++ formatWebVTTTime segment.endTime ++ "\n"
           ++ breakLongLines (collapseWs (jsTrim segment.text)) 40 ++ "\n\n")
      ++ webvttCues (i + 1) rest

/-- Model of `generateWebVTT` (captionService.js lines 287-340).  `nowIso` is the
value of `new Date().toISOString()` at rendering time. -/
def generateWebVTT (segments : List SyncedSegment) (translation : Translation)
    (nowIso : String) : String :=
  "WEBVTT\n"
    ++ "NOTE Generated by Video Translation App\n"
    ++ ("NOTE Language: " ++ translation.languageLabel ++ "\n")
    ++ ("NOTE Service: " ++ translation.serviceLabel ++ "\n")
    ++ ("NOTE Generated: " ++ nowIso ++ "\n")
    ++ "NOTE Synced with regenerated TTS audio\n"
    ++ ("NOTE Total Duration: " ++ decimal3String (lastEndOr0 segments) ++ "s\n\n")
    ++ webvttCues 0 segments

/-- Cue loop of `generateSRT` (captionService.js lines 356-377). -/
def srtCues : Nat → List SyncedSegment → String
  | _, [] => ""
  | i, segment :: rest =>
      (if (jsTrim segment.text).data.isEmpty then ""
       else
         toString (i + 1) ++ "\n"
           ++ formatSRTTime segment.start ++ " --> "
           ++ formatSRTTime segment.endTime ++ "\n"
           ++ breakLongLines (collapseWs (jsTrim segment.text)) 40 ++ "\n\n")
      ++ srtCues (i + 1) rest

/-- Model of `generateSRT` (captionService.js lines 350-381): no header, `,` as the
millisecond separator. -/
def generateSRT (segments : List SyncedSegment) (translation : Translation) : String :=
  srtCues 0 segments

/-- Timestamped per-segment listing of the transcript
(captionService.js lines 415-431). -/
def transcriptBlocks : List SyncedSegment → String
  | [] => ""
  | segment :: rest =>
      (if (jsTrim segment.text).data.isEmpty then ""
       else
         "[" ++ formatReadableTime segment.start ++ " - "
           ++ formatReadableTime segment.endTime ++ "] ("
           ++ toFixed1String (segment.endTime - segment.start) ++ "s)\n"
           ++ jsTrim segment.text ++ "\n\n")
      ++ transcriptBlocks rest

/-- Model of `generatePlainTextTranscript` (captionService.js lines 391-441).
`nowLocale` is the value of `new Date().toLocaleString()` at rendering
time. -/
def generatePlainTextTranscript (segments : List SyncedSegment)
    (translation : Translation) (nowLocale : String) : String :=
  "VIDEO TRANSCRIPT - SYNCED WITH REGENERATED AUDIO\n"
    ++ (repeatChar '=' 60 ++ "\n\n")
    ++ ("Language: " ++ translation.languageLabel ++ "\n")
    ++ ("Translation Service: " ++ translation.serviceLabel ++ "\n")
    ++ ("Generated: " ++ nowLocale ++ "\n")
    ++ ("Total Segments: " ++ toString segments.length ++ "\n")
    ++ ("Total Duration: " ++ decimal3String (lastEndOr0 segments) ++ "s\n")
    ++ "Audio Sync: Regenerated TTS timing\n\n"
    ++ (repeatChar '=' 60 ++ "\n\n")
    ++ "FULL TEXT:\n"
    ++ (repeatChar '-' 20 ++ "\n")
    ++ ((if translation.text.data.isEmpty then "No full text available"
         else translation.text) ++ "\n\n")
    ++ (repeatChar '=' 60 ++ "\n\n")
    ++ "TIMESTAMPED TRANSCRIPT (SYNCED):\n"
    ++ (repeatChar '-' 35 ++ "\n\n")
    ++ transcriptBlocks segments
    ++ (repeatChar '=' 60 ++ "\n")
    ++ "End of Transcript\n"
    ++ ("Total Duration: " ++ formatReadableTime (lastEndOr0 segments) ++ "\n")
    ++ "Timing: Perfectly synced with generated Bengali TTS audio\n"

/-- Byte size of a string written out as UTF-8 (what `fs.statSync(...).size`
reports for the generated files). -/
def utf8Len (s : String) : Nat := (s.data.map Char.utf8Size).sum

/-- The three files one caption-generation run writes. -/
structure CaptionRun where
  vtt : String
  srt : String
  transcript : String
  deriving DecidableEq, Repr

/-- Validation-and-rendering core of `generateCaptions`
(captionService.js lines 17-157): input validation, timing regeneration,
the three renderings, and the byte-size floors (50 for the WebVTT file, 10
for the transcript).  Directory creation and file writes are elided; the
probed `actualDuration` and the two clock readings are parameters. -/
def generateCaptionsCore (translation : Translation) (actualDuration : ℚ)
    (nowIso nowLocale : String) : Except String CaptionRun :=
  if translation.segments.length = 0 then
    Except.error "Translation segments array is empty or invalid"
  else
    let syncedSegments := regenerateSegmentTiming translation.segments actualDuration
    let webvttContent := generateWebVTT syncedSegments translation nowIso
    let srtContent := generateSRT syncedSegments translation
    let transcriptContent := generatePlainTextTranscript syncedSegments translation nowLocale
    if utf8Len webvttContent < 50 then
      Except.error "Generated caption file is too small"
    else if utf8Len transcriptContent < 10 then
      Except.error "Generated transcript file is too small"
    else
      Except.ok
        { vtt := webvttContent, srt := srtContent, transcript := transcriptContent }

/-- Whether a caption-generation run succeeded. -/
def exceptIsOk : Except String CaptionRun → Bool
  | .ok _ => true
  | .error _ => false

/-- SRT content of a run (error message on failure). -/
def srtOf : Except String CaptionRun → String
  | .ok c => c.srt
  | .error e => e

theorem utf8Len_append (a b : String) : utf8Len (a ++ b) = utf8Len a + utf8Len b := by
  unfold utf8Len
  rw [String.data_append, List.map_append, List.sum_append]

theorem generateWebVTT_byteFloor (segs : List SyncedSegment) (tr : Translation)
    (nowIso : String) : 50 ≤ utf8Len (generateWebVTT segs tr nowIso) := by
  have e1 : utf8Len "WEBVTT\n" = 7 := by decide
  have e2 : utf8Len "NOTE Generated by Video Translation App\n" = 40 := by decide
  have e3 : utf8Len "NOTE Language: " = 15 := by decide
  simp only [generateWebVTT, utf8Len_append]
  omega

theorem generatePlainTextTranscript_byteFloor (segs : List SyncedSegment)
    (tr : Translation) (nowLocale : String) :
    10 ≤ utf8Len (generatePlainTextTranscript segs tr nowLocale) := by
  have e1 : utf8Len "VIDEO TRANSCRIPT - SYNCED WITH REGENERATED AUDIO\n" = 49 := by
    decide
  simp only [generatePlainTextTranscript, utf8Len_append]
  omega

theorem generateCaptionsCore_ok_eq (translation : Translation) (D : ℚ)
    (nowIso nowLocale : String) (h : translation.segments ≠ []) :
    generateCaptionsCore translation D nowIso nowLocale = Except.ok
      { vtt := generateWebVTT (regenerateSegmentTiming translation.segments D)
          translation nowIso
        srt := generateSRT (regenerateSegmentTiming translation.segments D) translation
        transcript := generatePlainTextTranscript
          (regenerateSegmentTiming translation.segments D) translation nowLocale } := by
  have hlen : ¬ (translation.segments.length = 0) := by
    simpa [List.length_eq_zero] using h
  have h1 := generateWebVTT_byteFloor (regenerateSegmentTiming translation.segments D)
    translation nowIso
  have h2 := generatePlainTextTranscript_byteFloor
    (regenerateSegmentTiming translation.segments D) translation nowLocale
  simp only [generateCaptionsCore]
  rw [if_neg hlen, if_neg (by omega), if_neg (by omega)]

theorem generateCaptionsCore_empty_eq (translation : Translation) (D : ℚ)
    (nowIso nowLocale : String) (h : translation.segments = []) :
    generateCaptionsCore translation D nowIso nowLocale
      = Except.error "Translation segments array is empty or invalid" := by
  simp [generateCaptionsCore, h]

theorem generateCaptionsCore_isOk (translation : Translation) (D : ℚ)
    (nowIso nowLocale : String) (h : translation.segments ≠ []) :
    exceptIsOk (generateCaptionsCore translation D nowIso nowLocale) = true := by
  rw [generateCaptionsCore_ok_eq translation D nowIso nowLocale h]
  rfl

/-- C9 (amended): caption generation fails exactly when the input segments
array is empty; the 50-byte caption floor and 10-byte transcript floor are
checked but can never fire, because the fixed headers alone exceed them — in
particular an all-empty-text segment list still emits (header-only) caption
files instead of failing validation. -/
theorem caption_validation_characterization (translation : Translation) (D : ℚ)
    (nowIso nowLocale : String) :
    (exceptIsOk (generateCaptionsCore translation D nowIso nowLocale) = false
      ↔ translation.segments = []) ∧
    50 ≤ utf8Len (generateWebVTT (regenerateSegmentTiming translation.segments D)
        translation nowIso) ∧
    10 ≤ utf8Len (generatePlainTextTranscript
        (regenerateSegmentTiming translation.segments D) translation nowLocale) := by
  refine ⟨⟨?_, ?_⟩, generateWebVTT_byteFloor _ _ _,
    generatePlainTextTranscript_byteFloor _ _ _⟩
  · intro hfalse
    by_contra hne
    rw [generateCaptionsCore_isOk translation D nowIso nowLocale hne] at hfalse
    exact absurd hfalse (by simp)
  · intro hempty
    rw [generateCaptionsCore_empty_eq translation D nowIso nowLocale hempty]
    rfl

/-- C9 witness: the validation characterization applied to an empty segment
list: generation fails there. -/
theorem caption_validation_characterization_witness :
    exceptIsOk (generateCaptionsCore
      { segments := [], languageLabel := "Hindi",
        serviceLabel := "enhanced-pipeline", text := "" } 5 "T" "L") = false := by
  exact (caption_validation_characterization _ 5 "T" "L").1.mpr rfl

/-- A concrete translation whose every segment is empty after cleaning. -/
def allEmptyTranslation : Translation :=
  { segments := [{ start := 0, endTime := 1, text := "" },
                 { start := 1, endTime := 2, text := " " }]
    languageLabel := "Bengali"
    serviceLabel := "enhanced-pipeline"
    text := "" }

/-- C9 counterexample: a segment list whose every text is empty after
cleaning does NOT fail validation — caption generation succeeds and emits
header-only files, contrary to the claim. -/
theorem all_empty_segments_still_emit_captions :
    (allEmptyTranslation.segments.all (fun s => (jsTrim s.text).data.isEmpty)) = true ∧
    exceptIsOk (generateCaptionsCore allEmptyTranslation 10 "T" "L") = true := by
  refine ⟨by decide, ?_⟩
  apply generateCaptionsCore_isOk
  decide

theorem generateWebVTT_clock_inj {segs : List SyncedSegment} {tr : Translation}
    {t1 t2 : String}
    (h : generateWebVTT segs tr t1 = generateWebVTT segs tr t2) : t1 = t2 := by
  unfold generateWebVTT at h
  have hd := congrArg String.data h
  simp only [String.data_append, List.append_assoc] at hd
  have h1 := List.append_cancel_left hd
  have h2 := List.append_cancel_left h1
  have h3 := List.append_cancel_left h2
  have h4 := List.append_cancel_left h3
  have h5 := List.append_cancel_left h4
  have h6 := List.append_cancel_left h5
  have h7 := List.append_cancel_left h6
  have h8 := List.append_cancel_left h7
  have h9 := List.append_cancel_left h8
  have := List.append_cancel_right h9
  exact String.ext this

/-- Metadata for the re-run counterexample. -/
def rerunMeta : Translation :=
  { segments := [{ start := 0, endTime := 1, text := "hello" }]
    languageLabel := "Hindi"
    serviceLabel := "enhanced-pipeline"
    text := "hello" }

/-- C8 counterexample: `generateWebVTT` embeds `new Date().toISOString()`,
so two runs over identical segments and duration but one second apart give
different caption bytes. -/
theorem caption_rerun_counterexample :
    generateWebVTT (regenerateSegmentTiming rerunMeta.segments 1) rerunMeta
        "2025-01-01T00:00:00.000Z"
      ≠ generateWebVTT (regenerateSegmentTiming rerunMeta.segments 1) rerunMeta
        "2025-01-01T00:00:01.000Z" := by
  intro h
  have hclock := generateWebVTT_clock_inj h
  exact absurd hclock (by decide)

/-- C8 (amended): with the wall-clock readings factored out, caption
generation is a pure function: the SRT output is byte-identical across runs
regardless of the clock, and all three outputs are byte-identical whenever
the two runs read the same clock values; the WebVTT and transcript outputs
embed the clock reading and so differ across runs whose readings differ. -/
theorem caption_rerun_deterministic (translation : Translation) (D : ℚ)
    (t1 l1 t2 l2 : String) :
    srtOf (generateCaptionsCore translation D t1 l1)
        = srtOf (generateCaptionsCore translation D t2 l2) ∧
    (t1 = t2 → l1 = l2 →
      generateCaptionsCore translation D t1 l1
        = generateCaptionsCore translation D t2 l2) := by
  constructor
  · by_cases h : translation.segments = []
    · rw [generateCaptionsCore_empty_eq translation D t1 l1 h,
        generateCaptionsCore_empty_eq translation D t2 l2 h]
    · rw [generateCaptionsCore_ok_eq translation D t1 l1 h,
        generateCaptionsCore_ok_eq translation D t2 l2 h]
      rfl
  · intro ht hl
    subst ht
    subst hl
    rfl

/-- C8 witness: determinism applied at equal clock readings on a concrete
translation. -/
theorem caption_rerun_deterministic_witness :
    generateCaptionsCore allEmptyTranslation 10 "T" "L"
      = generateCaptionsCore allEmptyTranslation 10 "T" "L" := by
  exact (caption_rerun_deterministic allEmptyTranslation 10 "T" "L" "T" "L").2 rfl rfl

/-! ### Segment-based TTS (transcriptionService.js lines 3373-3553, the
integrated `ttsService.js`), duration fitting (lines 3744-3791), and
speech-rate estimation (lines 3422-3428). -/

/-- Translation object as handed to `generateSegmentBasedTTS` by
`generateTTS`: translated segments plus the probed source video duration
stored in `original_duration` (transcriptionService.js lines 3311-3314). -/
structure TtsTranslation where
  segments : List Segment
  original_duration : ℚ

/-- Entry pushed onto `segmentAudioFiles` for one segment (file paths are
elided; `duration` is the target duration the clip is booked at). -/
structure SegClip where
  duration : ℚ
  isSilence : Bool
  segmentIndex : Nat
  originalDuration : Option ℚ
  fallbackReason : Option String
  deriving Repr, DecidableEq

/-- The `adjustAudioDuration` decision (transcriptionService.js lines
3744-3791): the atempo factor actually applied to the clip, or `none` when
the required ratio is within 5% of 1 and the clip is left untouched.
`speedRatio` and `clampedRatio` of the source are `r` and `clamped`. -/
def adjustAction (currentDuration targetDuration : ℚ) : Option ℚ :=
  let r := currentDuration / targetDuration
  let clamped := max 0.5 (min 2.0 r)
  if |r - 1| < 0.05 then none else some clamped

/-- Per-segment correction decision (lines 3441-3455): `adjustAudioDuration`
is invoked only when the measured duration misses the target by more than
0.5s; after it the loop re-measures once and does not iterate. -/
def segmentAdjustAction (generatedDuration targetSegmentDuration : ℚ) : Option ℚ :=
  if |generatedDuration - targetSegmentDuration| > 0.5 then
    adjustAction generatedDuration targetSegmentDuration
  else none

/-- Body of the segment loop (lines 3398-3487): empty/whitespace text yields
a silence placeholder at the target duration; a synthesis failure is caught
locally and yields a silence placeholder tagged with the failure reason;
success books the clip at the target duration and records the measured
duration.  `synthOutcome` is the externally-determined result of Edge-TTS
plus the duration probe for this segment. -/
def processSegment (i : Nat) (segment : Segment) (targetSegmentDuration : ℚ)
    (synthOutcome : Except String ℚ) : SegClip :=
  if (jsTrim segment.text).data.isEmpty then
    { duration := targetSegmentDuration, isSilence := true, segmentIndex := i
      originalDuration := none, fallbackReason := none }
  else
    match synthOutcome with
    | .ok generatedDuration =>
        { duration := targetSegmentDuration, isSilence := false, segmentIndex := i
          originalDuration := some generatedDuration, fallbackReason := none }
    | .error msg =>
        { duration := targetSegmentDuration, isSilence := true, segmentIndex := i
          originalDuration := none, fallbackReason := some msg }

/-- Index-carrying recursion over the segment list. -/
def ttsClipsAux (segmentDuration : ℚ) (synth : Nat → Except String ℚ) :
    Nat → List Segment → List SegClip
  | _, [] => []
  | i, segment :: rest =>
      processSegment i segment segmentDuration (synth i)
        :: ttsClipsAux segmentDuration synth (i + 1) rest

/-- Clip list produced by `generateSegmentBasedTTS` (lines 3385-3487): the
per-segment target is the uniform `original_duration / segments.length`,
ignoring each segment's own start/end. -/
def generateSegmentBasedTTSClips (translation : TtsTranslation)
    (synth : Nat → Except String ℚ) : List SegClip :=
  let actualDuration := translation.original_duration
  let totalSegments := translation.segments.length
  let segmentDuration := actualDuration / totalSegments
  ttsClipsAux segmentDuration synth 0 translation.segments

/-- Post-concatenation corrective-pass trigger (lines 3496-3507):
`durationPreserved` is `difference < 1.5` and the whole-track
`adjustAudioDuration` call is guarded by
`!durationPreserved && Math.abs(difference) > 0.5`. -/
def finalAdjustDecision (finalDuration actualDuration : ℚ) : Bool :=
  let durationDifference := |finalDuration - actualDuration|
  let durationPreserved := decide (durationDifference < 1.5)
  !durationPreserved && decide (|durationDifference| > 0.5)

/-- The `wordCount` of the speech-rate estimate (line 3423):
`text.split(' ').filter(word => word.length > 0).length`. -/
def wordCount (text : String) : Nat :=
  ((jsSplitOnSpace text).filter (fun word => word.length > 0)).length

/-- The clamped `requiredWPM` (line 3425). -/
def requiredWPM (text : String) (targetSegmentDuration : ℚ) : ℚ :=
  max 50 (min 300 (((wordCount text : ℚ) / max targetSegmentDuration 0.5) * 60))

/-- The `speechRate` percentage as computed in the segment loop (lines 3423-3426), against
the 150-wpm `normalWPM` baseline. -/
def speechRateCalc (text : String) (targetSegmentDuration : ℚ) : ℤ :=
  let normalWPM : ℚ := 150
  jsRound ((requiredWPM text targetSegmentDuration / normalWPM) * 100)

theorem processSegment_duration (i : Nat) (seg : Segment) (d : ℚ)
    (o : Except String ℚ) : (processSegment i seg d o).duration = d := by
  cases o <;> by_cases h : (jsTrim seg.text).data.isEmpty = true <;>
    simp [processSegment, h]

theorem ttsClipsAux_length (d : ℚ) (synth : Nat → Except String ℚ) :
    ∀ (i : Nat) (l : List Segment), (ttsClipsAux d synth i l).length = l.length := by
  intro i l
  induction l generalizing i with
  | nil => simp [ttsClipsAux]
  | cons a t ih => simp [ttsClipsAux, ih]

theorem ttsClipsAux_getElem (d : ℚ) (synth : Nat → Except String ℚ) :
    ∀ (i : Nat) (l : List Segment) (j : Nat)
      (hj : j < (ttsClipsAux d synth i l).length) (hj' : j < l.length),
      (ttsClipsAux d synth i l)[j] = processSegment (i + j) l[j] d (synth (i + j)) := by
  intro i l
  induction l generalizing i with
  | nil => intro j hj hj'; simp at hj'
  | cons a t ih =>
      intro j hj hj'
      cases j with
      | zero => simp [ttsClipsAux]
      | succ k =>
          have hk : k < (ttsClipsAux d synth (i + 1) t).length := by
            have := ttsClipsAux_length d synth (i + 1) t
            simp [ttsClipsAux] at hj
            omega
          have hk' : k < t.length := by
            simp at hj'
            omega
          have := ih (i + 1) k hk hk'
          simp [ttsClipsAux]
          rw [show i + (k + 1) = i + 1 + k by omega]
          exact this

theorem generateSegmentBasedTTSClips_length (translation : TtsTranslation)
    (synth : Nat → Except String ℚ) :
    (generateSegmentBasedTTSClips translation synth).length
      = translation.segments.length := by
  unfold generateSegmentBasedTTSClips
  exact ttsClipsAux_length _ _ 0 _

theorem generateSegmentBasedTTSClips_getElem (translation : TtsTranslation)
    (synth : Nat → Except String ℚ) (j : Nat)
    (hj : j < (generateSegmentBasedTTSClips translation synth).length)
    (hj' : j < translation.segments.length) :
    (generateSegmentBasedTTSClips translation synth)[j]
      = processSegment j translation.segments[j]
          (translation.original_duration / translation.segments.length) (synth j) := by
  have hj2 : j < (ttsClipsAux
      (translation.original_duration / translation.segments.length) synth 0
      translation.segments).length := by
    simpa [generateSegmentBasedTTSClips] using hj
  have h := ttsClipsAux_getElem
    (translation.original_duration / translation.segments.length) synth 0
    translation.segments j hj2 hj'
  simpa [generateSegmentBasedTTSClips, Nat.zero_add] using h

/-- C1: the Timeline Assembler books every segment at the same target
duration, the probed source duration divided by the segment count; the
segments' own start/end boundaries play no role. -/
theorem uniform_segment_targets (translation : TtsTranslation)
    (synth : Nat → Except String ℚ) (hne : translation.segments ≠ []) :
    (generateSegmentBasedTTSClips translation synth).length
        = translation.segments.length ∧
    ∀ (i : Nat) (hi : i < (generateSegmentBasedTTSClips translation synth).length),
      ((generateSegmentBasedTTSClips translation synth)[i]).duration
        = translation.original_duration / translation.segments.length := by
  refine ⟨generateSegmentBasedTTSClips_length translation synth, ?_⟩
  intro i hi
  have hi' : i < translation.segments.length := by
    have := generateSegmentBasedTTSClips_length translation synth
    omega
  rw [generateSegmentBasedTTSClips_getElem translation synth i hi hi']
  exact processSegment_duration _ _ _ _

/-- Concrete three-segment translation with uneven original boundaries. -/
def exTtsTranslation : TtsTranslation :=
  { segments := [{ start := 0, endTime := 4, text := "hi" },
                 { start := 4, endTime := 30, text := "there" }]
    original_duration := 30 }

/-- C1 witness: on a 30s video with two segments of very uneven original
boundaries, both clips are booked at 15s. -/
theorem uniform_segment_targets_witness :
    ((generateSegmentBasedTTSClips exTtsTranslation (fun _ => .ok 10)).get
      ⟨0, by decide⟩).duration = 15 := by
  have h := (uniform_segment_targets exTtsTranslation (fun _ => .ok 10)
    (by decide)).2 0 (by decide)
  rw [show ((generateSegmentBasedTTSClips exTtsTranslation (fun _ => .ok 10)).get
      ⟨0, by decide⟩)
    = (generateSegmentBasedTTSClips exTtsTranslation (fun _ => .ok 10))[0] from rfl]
  rw [h]
  norm_num [exTtsTranslation]

theorem adjustAction_bounds (currentDuration targetDuration : ℚ) :
    ∀ f, adjustAction currentDuration targetDuration = some f →
      f = max 0.5 (min 2.0 (currentDuration / targetDuration))
        ∧ 0.5 ≤ f ∧ f ≤ 2.0 := by
  intro f hf
  unfold adjustAction at hf
  by_cases h : |currentDuration / targetDuration - 1| < 0.05
  · rw [if_pos h] at hf
    exact absurd hf (by simp)
  · rw [if_neg h] at hf
    have hfe : f = max 0.5 (min 2.0 (currentDuration / targetDuration)) :=
      (Option.some.injEq _ _ ▸ hf).symm
    refine ⟨hfe, ?_, ?_⟩
    · rw [hfe]; exact le_max_left _ _
    · rw [hfe]
      apply max_le (by norm_num)
      exact min_le_left _ _

/-- C3 (amended): the Segment Fitter applies a tempo pass exactly when the
measured duration misses the target by more than 0.5s and the required
ratio `actual/target` is at least 5% away from 1; the factor applied is the
ratio clamped to `[0.5, 2.0]` — when the required factor falls outside that
range, the clamped factor is still applied (the clip is scaled by the
bound, not kept untouched); a single pass is performed per segment. -/
theorem segment_fitter_adjust_spec (generatedDuration targetSegmentDuration : ℚ) :
    ((segmentAdjustAction generatedDuration targetSegmentDuration).isSome
        ↔ (|generatedDuration - targetSegmentDuration| > 0.5
            ∧ ¬ (|generatedDuration / targetSegmentDuration - 1| < 0.05))) ∧
    (∀ f, segmentAdjustAction generatedDuration targetSegmentDuration = some f →
      f = max 0.5 (min 2.0 (generatedDuration / targetSegmentDuration))
        ∧ 0.5 ≤ f ∧ f ≤ 2.0) := by
  constructor
  · unfold segmentAdjustAction adjustAction
    by_cases h1 : |generatedDuration - targetSegmentDuration| > 0.5 <;>
      by_cases h2 : |generatedDuration / targetSegmentDuration - 1| < 0.05 <;>
      simp [h1, h2]
  · intro f hf
    unfold segmentAdjustAction at hf
    by_cases h1 : |generatedDuration - targetSegmentDuration| > 0.5
    · rw [if_pos h1] at hf
      exact adjustAction_bounds _ _ f hf
    · rw [if_neg h1] at hf
      exact absurd hf (by simp)

/-- C3 witness: target 5s, synthesized 15s — required factor 3.0 is clamped
and the applied factor is 2.0, within the stated bounds. -/
theorem segment_fitter_adjust_spec_witness :
    (2 : ℚ) = max 0.5 (min 2.0 ((15 : ℚ) / 5)) ∧ (0.5 : ℚ) ≤ 2 ∧ (2 : ℚ) ≤ 2.0 := by
  exact (segment_fitter_adjust_spec 15 5).2 2
    (by norm_num [segmentAdjustAction, adjustAction])

/-- C3 counterexample: at measured 1s against target 0.6s the claimed
trigger (`|diff| > 0.3` and `target > 0.5`) holds yet no pass happens (the
code's threshold is 0.5); and with required factor 3 (15s against 5s) the
clip is scaled by the clamped factor 2.0 rather than kept untouched. -/
theorem segment_fitter_threshold_counterexample :
    (|(1 : ℚ) - 0.6| > 0.3 ∧ (0.6 : ℚ) > 0.5
      ∧ segmentAdjustAction 1 0.6 = none) ∧
    segmentAdjustAction 15 5 = some 2 := by
  have e1 : |(1 : ℚ) - 0.6| = 1 - 0.6 := abs_of_nonneg (by norm_num)
  have e3 : |(15 : ℚ) - 5| = 15 - 5 := abs_of_nonneg (by norm_num)
  have e4 : |(15 : ℚ) / 5 - 1| = 15 / 5 - 1 := abs_of_nonneg (by norm_num)
  refine ⟨⟨by rw [e1]; norm_num, by norm_num, ?_⟩, ?_⟩
  · unfold segmentAdjustAction
    rw [if_neg (by rw [e1]; norm_num)]
  · unfold segmentAdjustAction adjustAction
    rw [if_pos (by rw [e3]; norm_num)]
    rw [if_neg (by rw [e4]; norm_num)]
    norm_num [min_def, max_def]

/-- C5 (amended): the whole-track corrective pass is invoked exactly when
the achieved duration deviates from the target by **at least** 1.5s (the
code tests `difference < 1.5`, so a deviation of exactly 1.5s triggers the
pass); the pass goes through the same `adjustAudioDuration`, whose applied
factor is clamped to `[0.5, 2.0]`. -/
theorem final_corrective_pass_spec (finalDuration actualDuration : ℚ) :
    (finalAdjustDecision finalDuration actualDuration = true
      ↔ 1.5 ≤ |finalDuration - actualDuration|) ∧
    (∀ f, adjustAction finalDuration actualDuration = some f →
      0.5 ≤ f ∧ f ≤ 2.0) := by
  constructor
  · unfold finalAdjustDecision
    have habs : |(|finalDuration - actualDuration|)| = |finalDuration - actualDuration| :=
      abs_of_nonneg (abs_nonneg _)
    simp only [Bool.and_eq_true, Bool.not_eq_true', decide_eq_false_iff_not,
      decide_eq_true_eq, habs]
    constructor
    · rintro ⟨h1, h2⟩
      exact not_lt.mp h1
    · intro h
      exact ⟨not_lt.mpr h, by linarith⟩
  · intro f hf
    exact (adjustAction_bounds _ _ f hf).2

/-- C5 witness: a 3s overshoot triggers the final corrective pass. -/
theorem final_corrective_pass_spec_witness :
    finalAdjustDecision 33 30 = true := by
  exact (final_corrective_pass_spec 33 30).1.mpr (by norm_num)

/-- C5 counterexample: at a deviation of exactly 1.5s the code performs the
corrective pass although the claim (`more than 1.5s`) says it must not. -/
theorem final_pass_boundary_counterexample :
    finalAdjustDecision 28.5 30 = true ∧ ¬ (|(28.5 : ℚ) - 30| > 1.5) := by
  have e : |(28.5 : ℚ) - 30| = 1.5 := by
    rw [abs_of_nonpos (by norm_num)]
    norm_num
  have e2 : |(1.5 : ℚ)| = 1.5 := abs_of_nonneg (by norm_num)
  refine ⟨?_, by rw [e]; norm_num⟩
  simp only [finalAdjustDecision, e]
  simp only [Bool.and_eq_true, Bool.not_eq_true', decide_eq_false_iff_not,
    decide_eq_true_eq]
  constructor
  · norm_num
  · rw [e2]
    norm_num

theorem jsRound_mono {x y : ℚ} (h : x ≤ y) : jsRound x ≤ jsRound y := by
  unfold jsRound
  exact Int.floor_le_floor (by linarith)

/-- C6: the synthesis-rate hint comes from
`word_count / max(target, 0.5) * 60` wpm clamped to `[50, 300]`, expressed
as a rounded percentage of the 150-wpm baseline (hence always between 33%
and 200%). -/
theorem speech_rate_hint_spec (text : String) (targetSegmentDuration : ℚ) :
    requiredWPM text targetSegmentDuration
        = max 50 (min 300
            (((wordCount text : ℚ) / max targetSegmentDuration 0.5) * 60)) ∧
    50 ≤ requiredWPM text targetSegmentDuration ∧
    requiredWPM text targetSegmentDuration ≤ 300 ∧
    speechRateCalc text targetSegmentDuration
        = jsRound ((requiredWPM text targetSegmentDuration / 150) * 100) ∧
    33 ≤ speechRateCalc text targetSegmentDuration ∧
    speechRateCalc text targetSegmentDuration ≤ 200 := by
  have h50 : 50 ≤ requiredWPM text targetSegmentDuration := le_max_left _ _
  have h300 : requiredWPM text targetSegmentDuration ≤ 300 := by
    apply max_le (by norm_num)
    exact min_le_left _ _
  refine ⟨rfl, h50, h300, rfl, ?_, ?_⟩
  · have hlo : (100 : ℚ) / 3 ≤ (requiredWPM text targetSegmentDuration / 150) * 100 := by
      linarith
    have := jsRound_mono hlo
    have hval : jsRound ((100 : ℚ) / 3) = 33 := by
      unfold jsRound
      norm_num
    rw [hval] at this
    exact this
  · have hhi : (requiredWPM text targetSegmentDuration / 150) * 100 ≤ 200 := by
      linarith
    have := jsRound_mono hhi
    have hval : jsRound (200 : ℚ) = 200 := by
      unfold jsRound
      norm_num
    rw [hval] at this
    exact this

/-- C4 counterexample: with a zero overall target duration an empty-text
segment gets a zero-length silence clip, not the claimed 1.0s minimum. -/
theorem zero_target_silence_counterexample :
    ((generateSegmentBasedTTSClips
        { segments := [{ start := 0, endTime := 0, text := "" }],
          original_duration := 0 }
        (fun _ => .error "unused")).map SegClip.duration) = [0] ∧
    (0 : ℚ) ≠ 1 := by
  constructor
  · have hemp : (jsTrim "").data.isEmpty = true := by decide
    simp [generateSegmentBasedTTSClips, ttsClipsAux, processSegment, hemp]
  · norm_num

/-- C4 (amended): empty/whitespace text or a caught synthesis failure
yields a silence placeholder booked at exactly the uniform target duration
(no 1.0s minimum — a zero target yields zero-length silence), tagged with
the failure reason when there is one, and the clip list always covers every
segment, so a failure never aborts the assembly. -/
theorem silence_placeholder_spec (translation : TtsTranslation)
    (synth : Nat → Except String ℚ) :
    (generateSegmentBasedTTSClips translation synth).length
        = translation.segments.length ∧
    ∀ (i : Nat) (hi : i < translation.segments.length)
      (hc : i < (generateSegmentBasedTTSClips translation synth).length),
      ((jsTrim (translation.segments[i]).text).data.isEmpty = true →
        (generateSegmentBasedTTSClips translation synth)[i]
          = { duration := translation.original_duration / translation.segments.length,
              isSilence := true, segmentIndex := i,
              originalDuration := none, fallbackReason := none }) ∧
      (∀ msg, (jsTrim (translation.segments[i]).text).data.isEmpty = false →
        synth i = .error msg →
        (generateSegmentBasedTTSClips translation synth)[i]
          = { duration := translation.original_duration / translation.segments.length,
              isSilence := true, segmentIndex := i,
              originalDuration := none, fallbackReason := some msg }) := by
  refine ⟨generateSegmentBasedTTSClips_length translation synth, ?_⟩
  intro i hi hc
  rw [generateSegmentBasedTTSClips_getElem translation synth i hc hi]
  constructor
  · intro hemp
    simp [processSegment, hemp]
  · intro msg hnemp herr
    simp [processSegment, hnemp, herr]

/-- C4 witness: a failing synthesis on a nonempty segment yields a tagged
silence placeholder at the uniform target. -/
theorem silence_placeholder_spec_witness :
    ((generateSegmentBasedTTSClips exTtsTranslation (fun _ => .error "engine down")).get
      ⟨1, by decide⟩)
      = { duration := (15 : ℚ), isSilence := true, segmentIndex := 1,
          originalDuration := none, fallbackReason := some "engine down" } := by
  have h := ((silence_placeholder_spec exTtsTranslation
      (fun _ => .error "engine down")).2 1 (by decide) (by decide)).2
    "engine down" (by decide) rfl
  rw [show ((generateSegmentBasedTTSClips exTtsTranslation
      (fun _ => .error "engine down")).get ⟨1, by decide⟩)
    = (generateSegmentBasedTTSClips exTtsTranslation (fun _ => .error "engine down"))[1]
    from rfl]
  rw [h]
  have : exTtsTranslation.original_duration / (exTtsTranslation.segments.length : ℚ)
      = 15 := by
    norm_num [exTtsTranslation]
  rw [this]

/-! ### Pipeline orchestrator (processController.js lines 24-139). -/

/-- Persisted Job fields the orchestrator touches. -/
structure Job where
  processing_status : String
  processing_step : String
  error_message : Option String
  errorMessages : List String
  deriving Repr, DecidableEq

/-- The `processing_step` marker set before stage `k` runs (and `completed`
after the last stage). -/
def stepName : Nat → String
  | 0 => "audio_extraction"
  | 1 => "transcription"
  | 2 => "translation"
  | 3 => "tts_generation"
  | 4 => "caption_generation"
  | 5 => "video_assembly"
  | _ => "completed"

/-- Failure update of the catch handler (processController.js lines
121-129): status AND step are both set to the literal `failed`, the message
is stored in `error_message` and `$push`-ed onto `errorMessages`. -/
def failUpdate (job : Job) (msg : String) : Job :=
  { job with
    processing_status := "failed"
    processing_step := "failed"
    error_message := some msg
    errorMessages := job.errorMessages ++ [msg] }

/-- Sequential stage execution: the list holds the indices of the stages
still to run; an exception triggers the catch handler and is rethrown
(second component). -/
def runStages (outcome : Nat → Option String) : List Nat → Job → Job × Option String
  | [], job =>
      ({ job with processing_status := "completed", processing_step := "completed" },
        none)
  | k :: rest, job =>
      match outcome k with
      | some msg => (failUpdate job msg, some msg)
      | none => runStages outcome rest { job with processing_step := stepName (k + 1) }

/-- Model of `processVideo` (processController.js lines 24-139): mark processing
started at step `audio_extraction`, run the six stages in order (each
success advances `processing_step`), mark completed at the end; any stage
exception applies `failUpdate` and propagates.  `outcome k` is stage `k`'s
externally-determined result (`some msg` = exception with that message). -/
def processVideo (outcome : Nat → Option String) (job : Job) : Job × Option String :=
  runStages outcome [0, 1, 2, 3, 4, 5]
    { job with processing_status := "processing", processing_step := stepName 0 }

/-- C7 (amended): on a stage exception the Job ends with `status = failed`,
`step` set to the literal `failed` (overwriting the failing stage's
marker), the message appended to the error list and stored in
`error_message`, and the exception propagated to the caller. -/
theorem orchestrator_failure_handling (outcome : Nat → Option String) (job : Job)
    (k : Nat) (msg : String) (hk : k < 6)
    (hprev : ∀ j, j < k → outcome j = none) (hfail : outcome k = some msg) :
    (processVideo outcome job).2 = some msg ∧
    (processVideo outcome job).1.processing_status = "failed" ∧
    (processVideo outcome job).1.processing_step = "failed" ∧
    (processVideo outcome job).1.error_message = some msg ∧
    msg ∈ (processVideo outcome job).1.errorMessages := by
  have h0 : 0 < k → outcome 0 = none := fun h => hprev 0 h
  have h1 : 1 < k → outcome 1 = none := fun h => hprev 1 h
  have h2 : 2 < k → outcome 2 = none := fun h => hprev 2 h
  have h3 : 3 < k → outcome 3 = none := fun h => hprev 3 h
  have h4 : 4 < k → outcome 4 = none := fun h => hprev 4 h
  interval_cases k <;>
    simp_all [processVideo, runStages, failUpdate]

/-- Stage outcomes with the transcription stage raising `boom`. -/
def failAtTranscription : Nat → Option String :=
  fun k => if k = 1 then some "boom" else none

/-- A freshly-uploaded Job. -/
def initialJob : Job :=
  { processing_status := "uploaded", processing_step := "queued"
    error_message := none, errorMessages := [] }

/-- C7 counterexample: when the transcription stage throws, the stored step
is the literal `failed`, not the failing stage name, so the step is NOT
frozen at the failing stage as claimed. -/
theorem orchestrator_step_counterexample :
    (processVideo failAtTranscription initialJob).1.processing_step = "failed" ∧
    stepName 1 = "transcription" ∧
    (processVideo failAtTranscription initialJob).1.processing_step ≠ stepName 1 := by
  decide

/-- C7 witness: the failure-handling theorem applied to the concrete
transcription failure. -/
theorem orchestrator_failure_handling_witness :
    (processVideo failAtTranscription initialJob).2 = some "boom" := by
  exact (orchestrator_failure_handling failAtTranscription initialJob 1 "boom"
    (by omega) (fun j hj => by interval_cases j <;> rfl) rfl).1

end DubPipeline
